import Mathlib

/-!
Verification of the Service 1 document text-extraction core.

This file shallowly embeds the parts of the repository that the checked
claims are about:

* the garbage / quality gate `_is_garbage_text` and the per-page
  extraction pipeline of
  `backend/services/document_processing/utils/core_pdf_processor.py`;
* the password resolver of
  `backend/services/document_processing/services/file_management_service.py`;
* the per-document pipeline `_process_single_document` of
  `backend/services/document_text_extraction/services/document_text_extraction_service.py`,
  modelled as a pure function from an environment (outcomes of the
  external effects) to a result plus a trace of durable writes;
* the in-memory progress tracker and the progress HTTP endpoint.

Python strings are modelled as lists of Unicode code points (`List Nat`).
The character-class predicates (`isspace`, `isalnum`, `isprintable`) are
translated exactly for the Latin-1 range (code points below 256); theorems
about them carry that hypothesis.  Python float threshold comparisons such
as `count > len * 0.3` are modelled as exact rational comparisons
(`10 * count > 3 * len`); the two agree except at astronomically long
inputs where double rounding could flip a boundary case.
-/

namespace Service1

/-- A Python string, as its list of Unicode code points. -/
abbrev PyStr := List Nat

/-- Python `str.isspace` for one code point, exact on the Latin-1 range:
tab, LF, VT, FF, CR, the FS/GS/RS/US separators, space, NEL and NBSP. -/
def pyIsSpace (c : Nat) : Bool :=
  c = 9 || c = 10 || c = 11 || c = 12 || c = 13 ||
  c = 28 || c = 29 || c = 30 || c = 31 || c = 32 || c = 133 || c = 160

/-- Python `str.isalnum` for one code point, exact on the Latin-1 range:
ASCII digits and letters, the Latin-1 ordinal/micro signs, superscripts
and vulgar fractions, and the Latin-1 letters (excluding the
multiplication and division signs). -/
def pyIsAlnum (c : Nat) : Bool :=
  (48 ≤ c && c ≤ 57) || (65 ≤ c && c ≤ 90) || (97 ≤ c && c ≤ 122) ||
  c = 170 || c = 178 || c = 179 || c = 181 || c = 185 || c = 186 ||
  c = 188 || c = 189 || c = 190 ||
  (192 ≤ c && c ≤ 255 && c ≠ 215 && c ≠ 247)

/-- Python `str.isprintable` for one code point, exact on the Latin-1
range: the printable ASCII range 32..126, plus 161..255 except the soft
hyphen 173.  (0..31, 127..160 and 173 are the Latin-1 code points in the
Unicode categories Cc, Cf and Zs-other-than-space.) -/
def pyIsPrintable (c : Nat) : Bool :=
  (32 ≤ c && c ≤ 126) || (161 ≤ c && c ≤ 255 && c ≠ 173)

/-- Python `str.strip()`: drop leading and trailing whitespace. -/
def pyStrip (t : PyStr) : PyStr :=
  ((t.dropWhile pyIsSpace).reverse.dropWhile pyIsSpace).reverse

/-- Python `str.split()`: whitespace-delimited tokens, empties dropped. -/
def pyWords (t : PyStr) : List PyStr :=
  (t.splitOnP pyIsSpace).filter (fun w => w ≠ [])

/-- Number of maximal runs of characters satisfying `p` (the length of
`re.findall(p+, text)` for a character-class pattern `p`).  Counted at
run ends: a position ends a run when it satisfies `p` and is the last
character or followed by one that does not. -/
def countRuns (p : Nat → Bool) : List Nat → Nat
  | [] => 0
  | c :: rest =>
    let n := countRuns p rest
    if p c then
      match rest with
      | [] => 1
      | d :: _ => if p d then n else n + 1
    else n

/-- Character class of the garbage-gate control-sequence regex
`[\x00-\x08\x0B\x0C\x0E-\x1F\x7F-\x9F]` of `_is_garbage_text`: the
Unicode Cc control characters minus tab, LF and CR. -/
def isCtrlSeqChar (c : Nat) : Bool :=
  c ≤ 8 || c = 11 || c = 12 || (14 ≤ c && c ≤ 31) || (127 ≤ c && c ≤ 159)

/-- The punctuation characters exempted from the special-character count
in `_is_garbage_text` (the Python literal containing period, comma,
exclamation and question marks, semicolon, colon, parentheses, square and
curly brackets and the two quote characters). -/
def gatePunct : List Nat := [46, 44, 33, 63, 59, 58, 40, 41, 91, 93, 123, 125, 34, 39]

/-- Gate check 1 of `_is_garbage_text`: `not text.strip()`. -/
def gateCond1 (t : PyStr) : Bool := pyStrip t = []

/-- Gate check 2: control characters (code point below 32, excluding tab,
LF, CR) exceed 30 percent of the length
(`control_char_count > len(text) * 0.3`). -/
def gateCond2 (t : PyStr) : Bool :=
  10 * (t.filter (fun c => c < 32 && !(c = 9 || c = 10 || c = 13))).length > 3 * t.length

/-- Gate check 3: more than 3 maximal runs of the control-sequence
character class (`len(re.findall(control_pattern, text)) > 3`). -/
def gateCond3 (t : PyStr) : Bool := countRuns isCtrlSeqChar t > 3

/-- Gate check 4: characters that are neither alphanumeric, whitespace
nor exempted punctuation exceed 50 percent (`special_char_ratio > 0.5`). -/
def gateCond4 (t : PyStr) : Bool :=
  2 * (t.filter (fun c => !pyIsAlnum c && !pyIsSpace c && !(c ∈ gatePunct))).length > t.length

/-- Gate check 5: fewer than 5 distinct code points (`len(set(text)) < 5`). -/
def gateCond5 (t : PyStr) : Bool := t.dedup.length < 5

/-- Gate check 6: at least one word, and more than 70 percent of
whitespace-delimited tokens have length below 2
(`short_word_ratio > 0.7`). -/
def gateCond6 (t : PyStr) : Bool :=
  (pyWords t).length > 0 &&
    10 * ((pyWords t).filter (fun w => w.length < 2)).length > 7 * (pyWords t).length

/-- Gate check 7: non-printable characters (code point below 32 excluding
tab, LF, CR, or above 126) exceed 20 percent
(`non_printable_count > len(text) * 0.2`). -/
def gateCond7 (t : PyStr) : Bool :=
  5 * (t.filter (fun c => (c < 32 && !(c = 9 || c = 10 || c = 13)) || c > 126)).length > t.length

/-- Gate check 8: characters printable in the sense of Python
`str.isprintable`, excluding tab, LF, CR, make up less than 30 percent
(`printable_ratio < 0.3`). -/
def gateCond8 (t : PyStr) : Bool :=
  10 * (t.filter (fun c => pyIsPrintable c && !(c = 9 || c = 10 || c = 13))).length < 3 * t.length

/-- `_is_garbage_text` of `core_pdf_processor.py`, lines 584-648: the
eight checks applied in source order with early return. -/
def is_garbage_text (t : PyStr) : Bool :=
  if gateCond1 t then true
  else if gateCond2 t then true
  else if gateCond3 t then true
  else if gateCond4 t then true
  else if gateCond5 t then true
  else if gateCond6 t then true
  else if gateCond7 t then true
  else if gateCond8 t then true
  else false

/-- Condition 1 as the spec states it: trimmed text is empty. -/
def specCond1 (t : PyStr) : Bool := pyStrip t = []

/-- Condition 2 as the spec states it: the control-character count (code
point below 32, excluding tab, LF, CR) exceeds 30 percent of the length. -/
def specCond2 (t : PyStr) : Bool :=
  ((t.filter (fun c => c < 32 && !(c = 9 || c = 10 || c = 13))).length : ℚ) > (3 / 10) * t.length

/-- Condition 3 as the spec states it: more than 3 non-overlapping runs
of control characters (excluding tab, LF, CR). -/
def specCond3 (t : PyStr) : Bool := countRuns isCtrlSeqChar t > 3

/-- Condition 4 as the spec states it: characters that are neither
alphanumeric, whitespace, nor in the exempted punctuation set exceed 50
percent. -/
def specCond4 (t : PyStr) : Bool :=
  ((t.filter (fun c => !pyIsAlnum c && !pyIsSpace c && !(c ∈ gatePunct))).length : ℚ) >
    (1 / 2) * t.length

/-- Condition 5 as the spec states it: fewer than 5 distinct code points. -/
def specCond5 (t : PyStr) : Bool := t.toFinset.card < 5

/-- Condition 6 as the spec states it: at least one word exists and more
than 70 percent of whitespace-delimited tokens are shorter than 2. -/
def specCond6 (t : PyStr) : Bool :=
  pyWords t ≠ [] &&
    (((pyWords t).filter (fun w => w.length < 2)).length : ℚ) > (7 / 10) * (pyWords t).length

/-- Condition 7 as the spec states it: non-printable characters (code
point below 32 excluding tab, LF, CR, or above 126) exceed 20 percent. -/
def specCond7 (t : PyStr) : Bool :=
  ((t.filter (fun c => (c < 32 && !(c = 9 || c = 10 || c = 13)) || c > 126)).length : ℚ) >
    (1 / 5) * t.length

/-- Condition 8 as the spec states it: the printable-ASCII count
(code points 32..126, excluding tab, LF, CR) is below 30 percent of the
length. -/
def specCond8Ascii (t : PyStr) : Bool :=
  ((t.filter (fun c => 32 ≤ c && c ≤ 126 && !(c = 9 || c = 10 || c = 13))).length : ℚ) <
    (3 / 10) * t.length

/-- Condition 8 amended to what the code computes: the Python
`str.isprintable` count (excluding tab, LF, CR) is below 30 percent. -/
def specCond8Printable (t : PyStr) : Bool :=
  ((t.filter (fun c => pyIsPrintable c && !(c = 9 || c = 10 || c = 13))).length : ℚ) <
    (3 / 10) * t.length

/-- The quality gate as the spec claims it: the disjunction of the eight
conditions of section 4.4.2, with condition 8 reading printable-ASCII. -/
def garbageSpec (t : PyStr) : Bool :=
  specCond1 t || specCond2 t || specCond3 t || specCond4 t ||
  specCond5 t || specCond6 t || specCond7 t || specCond8Ascii t

/-- The quality gate with condition 8 amended to Python printability. -/
def garbageSpecAmended (t : PyStr) : Bool :=
  specCond1 t || specCond2 t || specCond3 t || specCond4 t ||
  specCond5 t || specCond6 t || specCond7 t || specCond8Printable t

/-- The separating input for claim C3: six printable Latin-1 characters,
only two of them ASCII, followed by fourteen newlines. -/
def c3Text : PyStr := [233, 224, 252, 246, 120, 121] ++ List.replicate 14 10

/-- A strict lower threshold comparison over the rationals coincides with
its cleared-denominator form over the naturals. -/
lemma frac_gt_iff (k m a b : ℕ) (hk : 0 < k) :
    ((a : ℚ) > ((m : ℚ) / k) * b) ↔ k * a > m * b := by
  rw [gt_iff_lt, div_mul_eq_mul_div, div_lt_iff₀ (by exact_mod_cast hk : (0 : ℚ) < (k : ℚ))]
  constructor
  · intro h
    have h2 : ((m * b : ℕ) : ℚ) < ((k * a : ℕ) : ℚ) := by push_cast; linarith
    exact_mod_cast h2
  · intro h
    have h2 : ((m * b : ℕ) : ℚ) < ((k * a : ℕ) : ℚ) := by exact_mod_cast h
    push_cast at h2
    linarith

/-- A strict upper threshold comparison over the rationals coincides with
its cleared-denominator form over the naturals. -/
lemma frac_lt_iff (k m a b : ℕ) (hk : 0 < k) :
    ((a : ℚ) < ((m : ℚ) / k) * b) ↔ k * a < m * b := by
  rw [div_mul_eq_mul_div, lt_div_iff₀ (by exact_mod_cast hk : (0 : ℚ) < (k : ℚ))]
  constructor
  · intro h
    have h2 : ((k * a : ℕ) : ℚ) < ((m * b : ℕ) : ℚ) := by push_cast; linarith
    exact_mod_cast h2
  · intro h
    have h2 : ((k * a : ℕ) : ℚ) < ((m * b : ℕ) : ℚ) := by exact_mod_cast h
    push_cast at h2
    linarith

lemma gateCond2_eq_spec (t : PyStr) : gateCond2 t = specCond2 t := by
  unfold gateCond2 specCond2
  rw [decide_eq_decide]
  exact (frac_gt_iff 10 3 _ _ (by norm_num)).symm

lemma gateCond4_eq_spec (t : PyStr) : gateCond4 t = specCond4 t := by
  unfold gateCond4 specCond4
  rw [decide_eq_decide]
  have h := (frac_gt_iff 2 1 ((t.filter
    (fun c => !pyIsAlnum c && !pyIsSpace c && !(c ∈ gatePunct))).length) t.length
    (by norm_num)).symm
  simpa using h

lemma gateCond5_eq_spec (t : PyStr) : gateCond5 t = specCond5 t := by
  unfold gateCond5 specCond5
  rw [decide_eq_decide, List.card_toFinset]

lemma gateCond6_eq_spec (t : PyStr) : gateCond6 t = specCond6 t := by
  unfold gateCond6 specCond6
  congr 1
  · rw [decide_eq_decide]
    exact List.length_pos
  · rw [decide_eq_decide]
    exact ((frac_gt_iff 10 7 _ _ (by norm_num))).symm

lemma gateCond7_eq_spec (t : PyStr) : gateCond7 t = specCond7 t := by
  unfold gateCond7 specCond7
  rw [decide_eq_decide]
  have h := (frac_gt_iff 5 1 ((t.filter
    (fun c => (c < 32 && !(c = 9 || c = 10 || c = 13)) || c > 126)).length) t.length
    (by norm_num)).symm
  simpa using h

lemma gateCond8_eq_spec (t : PyStr) : gateCond8 t = specCond8Printable t := by
  unfold gateCond8 specCond8Printable
  rw [decide_eq_decide]
  exact (frac_lt_iff 10 3 _ _ (by norm_num)).symm

/-- An early-return chain of eight boolean checks is their disjunction. -/
lemma if_chain_eq_or (a b c d e f g k : Bool) :
    (if a then true else if b then true else if c then true else if d then true
     else if e then true else if f then true else if g then true else if k then true
     else false) = (a || b || c || d || e || f || g || k) := by
  cases a <;> cases b <;> cases c <;> cases d <;> cases e <;> cases f <;> cases g <;>
    cases k <;> rfl

/-- C3 (amended): over Latin-1 inputs, the quality gate rejects a text
if and only if one of the eight conditions of section 4.4.2 holds, with
condition 8 reading Python printability (str.isprintable, excluding tab,
LF, CR) rather than printable-ASCII. -/
theorem c3_garbage_gate_amended (t : PyStr) (_hscope : ∀ c ∈ t, c < 256) :
    is_garbage_text t = garbageSpecAmended t := by
  unfold is_garbage_text garbageSpecAmended
  rw [if_chain_eq_or, gateCond2_eq_spec, gateCond4_eq_spec, gateCond5_eq_spec,
    gateCond6_eq_spec, gateCond7_eq_spec, gateCond8_eq_spec]
  rfl

/-- Witness for `c3_garbage_gate_amended` at the concrete Latin-1 input
`c3Text`. -/
theorem c3_garbage_gate_amended_witness :
    (∀ c ∈ c3Text, c < 256) ∧ is_garbage_text c3Text = garbageSpecAmended c3Text :=
  ⟨by decide, c3_garbage_gate_amended c3Text (by decide)⟩

/-- Counterexample for C3 as stated: `c3Text` is a Latin-1 input on which
the code accepts (the gate returns false) while the claimed disjunction
with the printable-ASCII condition 8 holds, so the claimed equivalence
fails. -/
theorem c3_counterexample :
    is_garbage_text c3Text = false ∧ garbageSpec c3Text = true ∧
      (∀ c ∈ c3Text, c < 256) := by
  have h8 : specCond8Ascii c3Text = true := by
    unfold specCond8Ascii
    rw [decide_eq_true_eq]
    exact (frac_lt_iff 10 3 _ _ (by norm_num)).mpr (by decide)
  refine ⟨by decide, ?_, by decide⟩
  unfold garbageSpec
  rw [h8]
  simp

/-! ### Per-page extraction pipeline (claim C4)

`_extract_page_text` tries the primary (fitz) extractor behind the
length/quality gate and falls back to a single Tesseract pass via
`_extract_with_tesseract`; the retry-with-alternate-PSM logic lives in
the separate helper `_extract_page_with_tesseract_enhanced`.  The
external engines are modelled as an environment giving each call's
outcome; each function returns its value together with the number of OCR
passes attempted. -/

/-- Environment for one `_extract_page_text` call: the outcome of
`page.get_text()` (which may raise) and of the single
`pytesseract.image_to_string` call made by `_extract_with_tesseract`
(which may raise), plus whether Tesseract is importable. -/
structure PageEnv where
  fitzRaises : Bool
  fitzText : PyStr
  tesseractAvailable : Bool
  ocrRaises : Bool
  ocrText : PyStr
deriving DecidableEq

/-- The page record `_extract_page_text` returns: extracted text, the
method tag, and whether the error field is non-null. -/
structure PageExtract where
  text : PyStr
  method : String
  hasError : Bool
deriving DecidableEq

/-- `_extract_page_text` of `core_pdf_processor.py`, lines 356-416,
paired with the number of OCR passes attempted.  The fitz text passes
the gate when its stripped length reaches `minTextLength` and
`_is_garbage_text` (applied to the unstripped text) is false; otherwise,
if Tesseract is available, exactly one OCR pass runs via
`_extract_with_tesseract` and its stripped result is returned with
method tesseract regardless of its length or quality; an OCR exception
or missing Tesseract yields the failed record. -/
def extract_page_text (minTextLength : Nat) (env : PageEnv) : PageExtract × Nat :=
  if !env.fitzRaises && decide ((pyStrip env.fitzText).length ≥ minTextLength) &&
      !is_garbage_text env.fitzText then
    ({ text := pyStrip env.fitzText, method := "fitz", hasError := false }, 0)
  else if env.tesseractAvailable then
    if !env.ocrRaises then
      ({ text := pyStrip env.ocrText, method := "tesseract", hasError := false }, 1)
    else
      ({ text := [], method := "failed", hasError := true }, 1)
  else
    ({ text := [], method := "failed", hasError := true }, 0)

/-- Environment for one `_extract_page_with_tesseract_enhanced` call:
availability, and the outcome of the PSM-6 and PSM-3 OCR passes. -/
structure OcrEnv where
  available : Bool
  raises6 : Bool
  psm6Text : PyStr
  raises3 : Bool
  psm3Text : PyStr
deriving DecidableEq

/-- `_extract_page_with_tesseract_enhanced` of `core_pdf_processor.py`,
lines 944-1000, paired with the number of OCR passes attempted: a first
pass with PSM 6; if its stripped text has fewer than 10 characters or
fails the quality gate, a second pass with PSM 3 whose stripped result
is kept regardless; any exception is caught and yields the empty
string. -/
def extract_page_with_tesseract_enhanced (env : OcrEnv) : PyStr × Nat :=
  if !env.available then ([], 0)
  else if env.raises6 then ([], 1)
  else
    if (pyStrip env.psm6Text).length < 10 || is_garbage_text (pyStrip env.psm6Text) then
      if env.raises3 then ([], 2) else (pyStrip env.psm3Text, 2)
    else (pyStrip env.psm6Text, 1)

/-- The separating environment for claim C4: the primary extractor
raises, Tesseract is available, and the one OCR pass returns the empty
string. -/
def c4Env : PageEnv :=
  { fitzRaises := true, fitzText := [], tesseractAvailable := true,
    ocrRaises := false, ocrText := [] }

/-- Counterexample for C4 as stated: in the per-page pipeline, when the
OCR fallback runs (method tesseract) and the first OCR pass yields fewer
than 10 characters, no second OCR pass happens - the pipeline makes
exactly one pass and keeps its result, for every minimum-length
setting (in particular the 250 the service configures). -/
theorem c4_counterexample :
    (extract_page_text 250 c4Env).1.method = "tesseract" ∧
      (pyStrip c4Env.ocrText).length < 10 ∧
      (extract_page_text 250 c4Env).2 = 1 ∧
      ¬ (∀ (minLen : Nat) (env : PageEnv),
          (extract_page_text minLen env).1.method = "tesseract" →
          (pyStrip env.ocrText).length < 10 →
          (extract_page_text minLen env).2 = 2) := by
  refine ⟨by decide, by decide, by decide, fun h => ?_⟩
  have h2 := h 250 c4Env (by decide) (by decide)
  exact absurd h2 (by decide)

/-- C4 (amended): the retry-with-alternate-PSM behaviour exists only in
the unused helper `_extract_page_with_tesseract_enhanced`; the per-page
pipeline `_extract_page_text` performs at most one OCR pass and, when
the fallback runs without raising, keeps the single pass's stripped
result regardless of length or quality.  In the helper, whenever the
first pass's stripped text has fewer than 10 characters or fails the
quality gate, a second pass runs and its result is kept regardless. -/
theorem c4_ocr_retry_amended :
    (∀ (minLen : Nat) (env : PageEnv),
      (extract_page_text minLen env).2 ≤ 1 ∧
      ((extract_page_text minLen env).1.method = "tesseract" →
        (extract_page_text minLen env).1.text = pyStrip env.ocrText)) ∧
    (∀ env : OcrEnv, env.available = true → env.raises6 = false →
      ((pyStrip env.psm6Text).length < 10 ∨ is_garbage_text (pyStrip env.psm6Text) = true) →
      (extract_page_with_tesseract_enhanced env).2 = 2 ∧
        (env.raises3 = false →
          (extract_page_with_tesseract_enhanced env).1 = pyStrip env.psm3Text)) := by
  constructor
  · intro minLen env
    unfold extract_page_text
    split
    · exact ⟨by omega, by intro h; simp at h⟩
    · split
      · split
        · exact ⟨le_refl 1, fun _ => rfl⟩
        · exact ⟨le_refl 1, by intro h; simp at h⟩
      · exact ⟨by omega, by intro h; simp at h⟩
  · intro env hav h6 hpoor
    unfold extract_page_with_tesseract_enhanced
    rw [hav, h6]
    have hcond : ((pyStrip env.psm6Text).length < 10 ||
        is_garbage_text (pyStrip env.psm6Text)) = true := by
      rcases hpoor with h | h
      · simp [h]
      · simp [h]
    simp only [Bool.not_true, Bool.false_eq_true, if_false, hcond, if_true]
    constructor
    · split <;> rfl
    · intro h3
      rw [h3]
      simp

/-- Witness for `c4_ocr_retry_amended`: the pipeline half at `c4Env`,
and the helper half at a concrete environment whose first pass returns
three characters. -/
theorem c4_ocr_retry_amended_witness :
    ((extract_page_text 250 c4Env).2 ≤ 1 ∧
      ((extract_page_text 250 c4Env).1.method = "tesseract" →
        (extract_page_text 250 c4Env).1.text = pyStrip c4Env.ocrText)) ∧
    ((extract_page_with_tesseract_enhanced
        { available := true, raises6 := false, psm6Text := [97, 98, 99],
          raises3 := false, psm3Text := [104, 105] }).2 = 2 ∧
      (false = false →
        (extract_page_with_tesseract_enhanced
          { available := true, raises6 := false, psm6Text := [97, 98, 99],
            raises3 := false, psm3Text := [104, 105] }).1 = pyStrip [104, 105])) :=
  ⟨c4_ocr_retry_amended.1 250 c4Env,
   c4_ocr_retry_amended.2
     { available := true, raises6 := false, psm6Text := [97, 98, 99],
       raises3 := false, psm3Text := [104, 105] }
     rfl rfl (Or.inl (by decide))⟩

/-! ### Per-document pipeline (claims C1, C2, C5, C7)

`_process_single_document` is modelled as a pure function from an
environment - the outcomes of its external effects (lock acquisition,
PDF materialisation, extraction, page persistence, downstream notify) -
to the returned result dictionary plus the trace of durable queue
writes, page persistence and the notify attempt, in execution order.
The database write helpers (`_update_queue_status`, `_update_error_message`,
`_update_datalake_raw_uri`, `_update_datalake_text_uri`,
`_update_text_extraction_duration`, `_update_last_processed`,
`_clear_processing_lock`) and `_call_service2` each catch all exceptions
internally and return a boolean, so they are modelled as total; the
modelled exception sources are `_get_pdf_file` and
`_save_extracted_content_to_service1_folder`, whose raises reach the
outer `except` handler.  The `finally` block appends the lock release
whenever the lock was acquired. -/

/-- Outcome of `_get_pdf_file`: a resolved local path, `None`
(source unavailable), or a raised exception with its message. -/
inductive FetchOutcome
  | ok (path : String)
  | unavailable
  | raised (msg : String)
deriving DecidableEq

/-- Outcome of `_extract_pdf_text` (which never raises: it catches all
exceptions and returns a failure dictionary): the success flag, the
error-message entry when present, and the page count. -/
structure ExtractionOut where
  success : Bool
  errorMessage : Option String
  totalPages : Nat
deriving DecidableEq

/-- Outcome of the downstream notify attempt inside `_call_service2`:
integration disabled, an HTTP response with a status code, a timeout, a
transport error, or any other exception. -/
inductive NotifyEnv
  | disabled
  | response (code : Nat)
  | timeout
  | transportError
  | unexpectedError
deriving DecidableEq

/-- Environment of one `_process_single_document` run. -/
structure DocEnv where
  lockOk : Bool
  fetch : FetchOutcome
  extraction : ExtractionOut
  saveRaises : Option String
  textUriVal : String
  notify : NotifyEnv
  hasExtractionId : Bool
deriving DecidableEq

/-- One durable effect of a run, in execution order: the queue-row lock
write, the URI / status / error / duration / timestamp writes, the page
persistence, the notify attempt, and the lock release. -/
inductive Ev
  | lockAcquired
  | rawUriWritten (path : String)
  | pagesPersisted
  | textUriWritten (uri : String)
  | statusWritten (v : Int)
  | errorWritten (msg : String)
  | durationWritten
  | lastProcessedTouched
  | notifyAttempted (ok : Bool)
  | lockReleased
deriving DecidableEq

/-- The fields of the returned result dictionary that the claims use. -/
structure DocResult where
  success : Bool
  error : Option String
deriving DecidableEq

/-- `_call_service2` of `document_text_extraction_service.py`, lines
848-921.  Every exception path is caught inside the function, so it is
total and returns a boolean: true when the integration is disabled or
the response status code is 200, 201 or 202; false on any other status
code, timeout, transport error or unexpected exception. -/
def call_service2 (n : NotifyEnv) : Bool :=
  match n with
  | NotifyEnv.disabled => true
  | NotifyEnv.response code => code = 200 || code = 201 || code = 202
  | NotifyEnv.timeout => false
  | NotifyEnv.transportError => false
  | NotifyEnv.unexpectedError => false

/-- The `try` body of `_process_single_document` after lock acquisition
succeeded, including the `except` handler: source-unavailable and
extraction-failure returns, the exception path (fetch or page
persistence raised), and the success path with its write sequence.  The
`pagesPersisted` event is emitted only when persistence completes
without raising. -/
def processBody (env : DocEnv) : DocResult × List Ev :=
  match env.fetch with
  | FetchOutcome.unavailable =>
    ({ success := false, error := some "Could not access PDF file" },
     [Ev.statusWritten (-1), Ev.errorWritten "Could not access PDF file"])
  | FetchOutcome.raised m =>
    ({ success := false, error := some m },
     [Ev.statusWritten (-1), Ev.errorWritten m])
  | FetchOutcome.ok path =>
    if !env.extraction.success then
      let msg := env.extraction.errorMessage.getD "PDF extraction failed"
      ({ success := false, error := some msg },
       [Ev.rawUriWritten path, Ev.statusWritten (-1), Ev.errorWritten msg])
    else
      match env.saveRaises with
      | some m =>
        ({ success := false, error := some m },
         [Ev.rawUriWritten path, Ev.statusWritten (-1), Ev.errorWritten m])
      | none =>
        ({ success := true, error := none },
         [Ev.rawUriWritten path, Ev.pagesPersisted, Ev.textUriWritten env.textUriVal,
          Ev.statusWritten 100, Ev.durationWritten, Ev.lastProcessedTouched] ++
         (if env.hasExtractionId then
            [Ev.notifyAttempted (call_service2 env.notify)] else []))

/-- `_process_single_document` of `document_text_extraction_service.py`,
lines 405-605: on lock contention return the fixed failure result with
no durable writes; otherwise run the body and always release the lock in
the `finally` epilogue. -/
def process_single_document (env : DocEnv) : DocResult × List Ev :=
  if !env.lockOk then
    ({ success := false, error := some "Document is currently being processed" }, [])
  else
    ((processBody env).1,
      Ev.lockAcquired :: ((processBody env).2 ++ [Ev.lockReleased]))

/-- Number of lock-release events in a trace. -/
def countRelease : List Ev → Nat
  | [] => 0
  | Ev.lockReleased :: rest => countRelease rest + 1
  | _ :: rest => countRelease rest

/-- C1: a run that acquired the processing lock releases it exactly
once, on every exit path - success, source unavailable, extraction
failure, and the exception paths - and a run that failed to acquire it
never releases it. -/
theorem c1_lock_release (env : DocEnv) :
    countRelease (process_single_document env).2 = if env.lockOk then 1 else 0 := by
  rcases env with ⟨lockOk, fetch, ext, save, uri, notif, hasId⟩
  cases lockOk
  · rfl
  · cases fetch with
    | unavailable => rfl
    | raised m => rfl
    | ok p =>
      rcases ext with ⟨success, errMsg, pages⟩
      cases success
      · rfl
      · cases save
        · cases hasId <;> rfl
        · rfl

/-- A success-path environment: lock acquired, PDF resolved, extraction
succeeded, persistence succeeded, extraction id present, notify got a
200 response. -/
def c2Env : DocEnv :=
  { lockOk := true, fetch := FetchOutcome.ok "/tmp/doc.pdf",
    extraction := { success := true, errorMessage := none, totalPages := 3 },
    saveRaises := none, textUriVal := "/out/doc/extracted_text",
    notify := NotifyEnv.response 200, hasExtractionId := true }

/-- C2: after lock acquisition, a fully successful run produces exactly
the write order lock acquired, raw URI, pages persisted, text URI,
status 100, duration, last-processed touch, notify, lock released; any
failing run ends with status -1, then the error message, then the lock
release, preceded at most by the raw-URI write; the text URI is written
only on the success path (and there strictly before status 100, by the
explicit order); and no failing run writes status 100. -/
theorem c2_write_order (env : DocEnv) (hlock : env.lockOk = true) :
    (∀ p, env.fetch = FetchOutcome.ok p → env.extraction.success = true →
        env.saveRaises = none → env.hasExtractionId = true →
        (process_single_document env).2 =
          [Ev.lockAcquired, Ev.rawUriWritten p, Ev.pagesPersisted,
           Ev.textUriWritten env.textUriVal, Ev.statusWritten 100, Ev.durationWritten,
           Ev.lastProcessedTouched, Ev.notifyAttempted (call_service2 env.notify),
           Ev.lockReleased]) ∧
    ((process_single_document env).1.success = false →
      ∃ e pfx, (process_single_document env).2 =
          Ev.lockAcquired ::
            (pfx ++ [Ev.statusWritten (-1), Ev.errorWritten e, Ev.lockReleased]) ∧
        (pfx = [] ∨ ∃ q, pfx = [Ev.rawUriWritten q])) ∧
    (∀ u, Ev.textUriWritten u ∈ (process_single_document env).2 →
      (process_single_document env).1.success = true) ∧
    ((process_single_document env).1.success = false →
      Ev.statusWritten 100 ∉ (process_single_document env).2) := by
  rcases env with ⟨lockOk, fetch, ext, save, uri, notif, hasId⟩
  simp only at hlock
  subst hlock
  cases fetch with
  | unavailable =>
    refine ⟨fun p hp => (FetchOutcome.noConfusion hp), ?_, ?_, ?_⟩
    · exact fun _ => ⟨"Could not access PDF file", [], rfl, Or.inl rfl⟩
    · intro u hu
      simp [process_single_document, processBody] at hu
    · intro _ hmem
      simp [process_single_document, processBody] at hmem
  | raised m =>
    refine ⟨fun p hp => (FetchOutcome.noConfusion hp), ?_, ?_, ?_⟩
    · exact fun _ => ⟨m, [], rfl, Or.inl rfl⟩
    · intro u hu
      simp [process_single_document, processBody] at hu
    · intro _ hmem
      simp [process_single_document, processBody] at hmem
  | ok p =>
    rcases ext with ⟨esucc, errMsg, pages⟩
    cases esucc
    · refine ⟨?_, ?_, ?_, ?_⟩
      · intro q hq hes
        simp at hes
      · exact fun _ =>
          ⟨errMsg.getD "PDF extraction failed", [Ev.rawUriWritten p], rfl,
            Or.inr ⟨p, rfl⟩⟩
      · intro u hu
        simp [process_single_document, processBody] at hu
      · intro _ hmem
        simp [process_single_document, processBody] at hmem
    · cases save with
      | some m =>
        refine ⟨?_, ?_, ?_, ?_⟩
        · intro q hq hes hsave
          simp at hsave
        · exact fun _ => ⟨m, [Ev.rawUriWritten p], rfl, Or.inr ⟨p, rfl⟩⟩
        · intro u hu
          simp [process_single_document, processBody] at hu
        · intro _ hmem
          simp [process_single_document, processBody] at hmem
      | none =>
        cases hasId
        · refine ⟨?_, ?_, ?_, ?_⟩
          · intro q hq hes hsave hid
            simp at hid
          · intro hfail
            simp [process_single_document, processBody] at hfail
          · intro u hu
            rfl
          · intro hfail
            simp [process_single_document, processBody] at hfail
        · refine ⟨?_, ?_, ?_, ?_⟩
          · intro q hq hes hsave hid
            cases hq
            rfl
          · intro hfail
            simp [process_single_document, processBody] at hfail
          · intro u hu
            rfl
          · intro hfail
            simp [process_single_document, processBody] at hfail

/-- Witness for `c2_write_order`: the explicit success-path trace at the
concrete environment `c2Env`. -/
theorem c2_write_order_witness :
    (process_single_document c2Env).2 =
      [Ev.lockAcquired, Ev.rawUriWritten "/tmp/doc.pdf", Ev.pagesPersisted,
       Ev.textUriWritten "/out/doc/extracted_text", Ev.statusWritten 100,
       Ev.durationWritten, Ev.lastProcessedTouched,
       Ev.notifyAttempted (call_service2 (NotifyEnv.response 200)), Ev.lockReleased] :=
  (c2_write_order c2Env rfl).1 "/tmp/doc.pdf" rfl rfl rfl rfl

/-- A lock-contention environment: the row is already being processed. -/
def c5Env : DocEnv :=
  { lockOk := false, fetch := FetchOutcome.ok "/tmp/doc2.pdf",
    extraction := { success := true, errorMessage := none, totalPages := 2 },
    saveRaises := none, textUriVal := "/out/doc2/extracted_text",
    notify := NotifyEnv.disabled, hasExtractionId := true }

/-- C5: a run whose lock acquisition fails returns the fixed failure
result with error message Document is currently being processed, and
performs no durable write at all - no status, error, URI or duration
write, and no lock release. -/
theorem c5_lock_contention (env : DocEnv) (h : env.lockOk = false) :
    process_single_document env =
      ({ success := false, error := some "Document is currently being processed" },
       []) := by
  unfold process_single_document
  rw [h]
  rfl

/-- Witness for `c5_lock_contention` at the concrete environment
`c5Env`. -/
theorem c5_lock_contention_witness :
    process_single_document c5Env =
      ({ success := false, error := some "Document is currently being processed" },
       []) :=
  c5_lock_contention c5Env rfl

/-- A success-path environment whose downstream notify times out. -/
def c7Env : DocEnv :=
  { lockOk := true, fetch := FetchOutcome.ok "/tmp/doc3.pdf",
    extraction := { success := true, errorMessage := none, totalPages := 5 },
    saveRaises := none, textUriVal := "/out/doc3/extracted_text",
    notify := NotifyEnv.timeout, hasExtractionId := true }

/-- C7: for a successful extraction, the notify outcome (disabled,
non-2xx response, timeout, transport error, unexpected exception) never
changes the per-document result: the run still returns success, status
100 is written and status -1 never is, for every notify environment;
and `_call_service2` (a total function: every exception path is caught)
reports success exactly for response codes 200, 201 and 202, and for the
disabled integration. -/
theorem c7_notify_isolation (env : DocEnv) (p : String)
    (hlock : env.lockOk = true) (hfetch : env.fetch = FetchOutcome.ok p)
    (hext : env.extraction.success = true) (hsave : env.saveRaises = none) :
    (process_single_document env).1.success = true ∧
    Ev.statusWritten 100 ∈ (process_single_document env).2 ∧
    Ev.statusWritten (-1) ∉ (process_single_document env).2 ∧
    (∀ code, call_service2 (NotifyEnv.response code) = true ↔
      (code = 200 ∨ code = 201 ∨ code = 202)) ∧
    call_service2 NotifyEnv.disabled = true ∧
    call_service2 NotifyEnv.timeout = false ∧
    call_service2 NotifyEnv.transportError = false ∧
    call_service2 NotifyEnv.unexpectedError = false := by
  rcases env with ⟨lockOk, fetch, ext, save, uri, notif, hasId⟩
  simp only at hlock hfetch hext hsave
  subst hlock hfetch hsave
  rcases ext with ⟨esucc, errMsg, pages⟩
  simp only at hext
  subst hext
  refine ⟨?_, ?_, ?_, ?_, rfl, rfl, rfl, rfl⟩
  · cases hasId <;> rfl
  · cases hasId <;> simp [process_single_document, processBody]
  · cases hasId <;> simp [process_single_document, processBody]
  · intro code
    simp [call_service2]
    tauto

/-- Witness for `c7_notify_isolation`: at `c7Env` (notify times out) the
run still succeeds and status 100 is on the trace. -/
theorem c7_notify_isolation_witness :
    (process_single_document c7Env).1.success = true ∧
    Ev.statusWritten 100 ∈ (process_single_document c7Env).2 :=
  ⟨(c7_notify_isolation c7Env "/tmp/doc3.pdf" rfl rfl rfl rfl).1,
   (c7_notify_isolation c7Env "/tmp/doc3.pdf" rfl rfl rfl rfl).2.1⟩

/-! ### Password resolver and authentication loop (claims C6, C10)

`FileManagementService` state is modelled as the loaded CSV map, the
in-memory cache and the configured default password (the empty string
standing for a falsy value).  `get_all_passwords_for_file` is the
incremental guarded-append construction of the source;
`extract_text_from_pdf_enhanced` is its caller with the 3-attempt
authentication loop, returning the result fields the claims use together
with the number of `doc.authenticate` calls made and the list of
passwords passed to `save_successful_password`. -/

/-- State of a `FileManagementService` instance: the password CSV
contents, the in-memory password cache, and the default password. -/
structure FMS where
  csv : List (String × String)
  cache : List (String × String)
  default_password : String
deriving DecidableEq

/-- The first candidate source: the caller-supplied password when truthy
(`if provided_password:`). -/
def providedList (provided : Option String) : List String :=
  match provided with
  | some p => if p ≠ "" then [p] else []
  | none => []

/-- An optional lookup result as a zero- or one-element candidate list. -/
def optList : Option String → List String
  | some p => [p]
  | none => []

/-- `get_all_passwords_for_file` of `file_management_service.py`, lines
187-212: the provided password if truthy, then the CSV entry, the cached
entry and the truthy default (each appended only when not already
present), then the `None` sentinel. -/
def get_all_passwords_for_file (fms : FMS) (filename : String)
    (provided : Option String) : List (Option String) :=
  let l1 : List String := providedList provided
  let l2 : List String := match fms.csv.lookup filename with
    | some p => if p ∈ l1 then l1 else l1 ++ [p]
    | none => l1
  let l3 : List String := match fms.cache.lookup filename with
    | some p => if p ∈ l2 then l2 else l2 ++ [p]
    | none => l2
  let l4 : List String :=
    if fms.default_password ≠ "" ∧ fms.default_password ∉ l3 then
      l3 ++ [fms.default_password]
    else l3
  l4.map some ++ [none]

/-- First-occurrence duplicate removal, with the elements already seen
as an accumulator. -/
def dedupFirstAux {α : Type} [DecidableEq α] (seen : List α) : List α → List α
  | [] => []
  | a :: l =>
    if a ∈ seen then dedupFirstAux seen l
    else a :: dedupFirstAux (a :: seen) l

/-- Duplicates removed preserving the first occurrence. -/
def dedupFirst {α : Type} [DecidableEq α] (l : List α) : List α :=
  dedupFirstAux [] l

/-- The candidate sequence as the spec states it: provided password if
non-empty, CSV-cached password if present, in-memory cached password if
present, default password if non-empty, and the null sentinel. -/
def specCandidates (fms : FMS) (filename : String)
    (provided : Option String) : List (Option String) :=
  (providedList provided).map some ++
  (optList (fms.csv.lookup filename)).map some ++
  (optList (fms.cache.lookup filename)).map some ++
  (if fms.default_password ≠ "" then [some fms.default_password] else []) ++
  [none]

/-- The resolver output as the spec states it: the candidate sequence
with duplicates removed preserving first occurrence. -/
def passwordSpecList (fms : FMS) (filename : String)
    (provided : Option String) : List (Option String) :=
  dedupFirst (specCandidates fms filename provided)

lemma mem_dedupFirstAux {α : Type} [DecidableEq α] (a : α) :
    ∀ (l seen : List α), a ∈ dedupFirstAux seen l ↔ (a ∈ l ∧ a ∉ seen)
  | [], seen => by simp [dedupFirstAux]
  | b :: l, seen => by
    by_cases hb : b ∈ seen
    · rw [dedupFirstAux, if_pos hb, mem_dedupFirstAux a l seen]
      constructor
      · rintro ⟨h1, h2⟩
        exact ⟨List.mem_cons_of_mem b h1, h2⟩
      · rintro ⟨h1, h2⟩
        rcases List.mem_cons.mp h1 with rfl | h1
        · exact absurd hb h2
        · exact ⟨h1, h2⟩
    · rw [dedupFirstAux, if_neg hb]
      by_cases hab : a = b
      · subst hab
        constructor
        · intro _
          exact ⟨List.mem_cons_self a l, hb⟩
        · intro _
          exact List.mem_cons_self a _
      · simp only [List.mem_cons, hab, false_or]
        rw [mem_dedupFirstAux a l (b :: seen)]
        simp only [List.mem_cons, hab, false_or]

lemma mem_dedupFirst {α : Type} [DecidableEq α] (a : α) (l : List α) :
    a ∈ dedupFirst l ↔ a ∈ l := by
  rw [dedupFirst, mem_dedupFirstAux]
  simp

lemma dedupFirstAux_snoc {α : Type} [DecidableEq α] (a : α) :
    ∀ (l seen : List α), dedupFirstAux seen (l ++ [a]) =
      if a ∈ seen ∨ a ∈ l then dedupFirstAux seen l
      else dedupFirstAux seen l ++ [a]
  | [], seen => by
    by_cases h : a ∈ seen <;> simp [dedupFirstAux, h]
  | b :: l, seen => by
    by_cases hb : b ∈ seen
    · rw [List.cons_append, dedupFirstAux, if_pos hb, dedupFirstAux_snoc a l seen,
        dedupFirstAux, if_pos hb]
      by_cases hmem : a ∈ seen ∨ a ∈ l
      · rw [if_pos hmem, if_pos]
        rcases hmem with h | h
        · exact Or.inl h
        · exact Or.inr (List.mem_cons_of_mem b h)
      · rw [if_neg hmem, if_neg]
        intro hcon
        rcases hcon with h | h
        · exact hmem (Or.inl h)
        · rcases List.mem_cons.mp h with rfl | h
          · exact hmem (Or.inl hb)
          · exact hmem (Or.inr h)
    · rw [List.cons_append, dedupFirstAux, if_neg hb, dedupFirstAux_snoc a l (b :: seen),
        dedupFirstAux, if_neg hb]
      by_cases hmem : a ∈ b :: seen ∨ a ∈ l
      · rw [if_pos hmem, if_pos]
        rcases hmem with h | h
        · rcases List.mem_cons.mp h with rfl | h
          · exact Or.inr (List.mem_cons_self a l)
          · exact Or.inl h
        · exact Or.inr (List.mem_cons_of_mem b h)
      · rw [if_neg hmem, if_neg, List.cons_append]
        intro hcon
        rcases hcon with h | h
        · exact hmem (Or.inl (List.mem_cons_of_mem b h))
        · rcases List.mem_cons.mp h with rfl | h
          · exact hmem (Or.inl (List.mem_cons_self a seen))
          · exact hmem (Or.inr h)

lemma dedupFirst_snoc {α : Type} [DecidableEq α] (l : List α) (a : α) :
    dedupFirst (l ++ [a]) =
      if a ∈ dedupFirst l then dedupFirst l else dedupFirst l ++ [a] := by
  rw [dedupFirst, dedupFirstAux_snoc a l []]
  by_cases h : a ∈ l
  · rw [if_pos (Or.inr h), if_pos ((mem_dedupFirst a l).mpr h)]
    rfl
  · rw [if_neg (by simp [h]), if_neg (fun hc => h ((mem_dedupFirst a l).mp hc))]
    rfl

lemma dedupFirstAux_map_some :
    ∀ (l : List String) (seen : List String),
      dedupFirstAux (seen.map some) (l.map some) = (dedupFirstAux seen l).map some
  | [], seen => by simp [dedupFirstAux]
  | b :: l, seen => by
    by_cases hb : b ∈ seen
    · rw [List.map_cons, dedupFirstAux, if_pos (by simp [hb]), dedupFirstAux, if_pos hb,
        dedupFirstAux_map_some l seen]
    · rw [List.map_cons, dedupFirstAux, if_neg (by simp [hb]), dedupFirstAux, if_neg hb,
        List.map_cons, ← List.map_cons some b seen, dedupFirstAux_map_some l (b :: seen)]

lemma dedupFirst_map_some (l : List String) :
    dedupFirst (l.map some) = (dedupFirst l).map some := by
  rw [dedupFirst, dedupFirst, ← dedupFirstAux_map_some l []]
  rfl

/-- The null sentinel never occurs among deduplicated string candidates. -/
lemma none_not_mem_dedup_map_some (l : List String) :
    (none : Option String) ∉ dedupFirst (l.map some) := by
  intro hmem
  rcases List.mem_map.mp ((mem_dedupFirst _ _).mp hmem) with ⟨x, _, hx⟩
  exact Option.noConfusion hx

/-- The guarded-append construction over arbitrary optional candidates
equals first-occurrence deduplication of their concatenation. -/
lemma guarded_construction_eq (c1 l2 l3 l4 : List String) (o2 o3 : Option String)
    (d : String)
    (h1 : dedupFirst c1 = c1)
    (h2 : l2 = match o2 with
      | some p => if p ∈ c1 then c1 else c1 ++ [p]
      | none => c1)
    (h3 : l3 = match o3 with
      | some p => if p ∈ l2 then l2 else l2 ++ [p]
      | none => l2)
    (h4 : l4 = if d ≠ "" ∧ d ∉ l3 then l3 ++ [d] else l3) :
    l4.map some ++ [none] =
      dedupFirst ((c1 ++ optList o2 ++ optList o3 ++
        (if d ≠ "" then [d] else [])).map some ++ [(none : Option String)]) := by
  have e2 : dedupFirst (c1 ++ optList o2) = l2 := by
    rcases o2 with _ | p
    · rw [h2]
      simpa [optList] using h1
    · rw [h2, optList, dedupFirst_snoc, h1]
  have e3 : dedupFirst (c1 ++ optList o2 ++ optList o3) = l3 := by
    rcases o3 with _ | p
    · rw [h3]
      simpa [optList] using e2
    · rw [h3, optList, ← e2, dedupFirst_snoc]
  have e4 : dedupFirst (c1 ++ optList o2 ++ optList o3 ++
      (if d ≠ "" then [d] else [])) = l4 := by
    by_cases hd : d = ""
    · rw [if_neg (by simp [hd]), h4, if_neg (by simp [hd])]
      simpa using e3
    · rw [if_pos hd, h4]
      by_cases hmem : d ∈ l3
      · rw [if_neg (fun hcon => hcon.2 hmem), dedupFirst_snoc, e3, if_pos hmem]
      · rw [if_pos ⟨hd, hmem⟩, dedupFirst_snoc, e3, if_neg hmem]
  rw [dedupFirst_snoc, if_neg (none_not_mem_dedup_map_some _), dedupFirst_map_some, e4]

/-- C6 equality core: the incremental guarded-append construction of the
source equals first-occurrence deduplication of the spec candidate
sequence. -/
lemma get_all_eq_spec (fms : FMS) (filename : String) (provided : Option String) :
    get_all_passwords_for_file fms filename provided =
      passwordSpecList fms filename provided := by
  have h1 : dedupFirst (providedList provided) = providedList provided := by
    rcases provided with _ | p
    · rfl
    · by_cases hp : p = "" <;> simp [providedList, hp, dedupFirst, dedupFirstAux]
  have key := guarded_construction_eq (providedList provided) _ _ _
    (fms.csv.lookup filename) (fms.cache.lookup filename)
    fms.default_password h1 rfl rfl rfl
  simp only [get_all_passwords_for_file]
  rw [key]
  unfold passwordSpecList
  apply congrArg dedupFirst
  unfold specCandidates
  by_cases hd : fms.default_password = "" <;>
    simp [hd, List.map_append, List.append_assoc]

lemma dedupFirstAux_length_le {α : Type} [DecidableEq α] :
    ∀ (l seen : List α), (dedupFirstAux seen l).length ≤ l.length
  | [], _ => by simp [dedupFirstAux]
  | a :: l, seen => by
    rw [dedupFirstAux]
    by_cases h : a ∈ seen
    · rw [if_pos h]
      exact Nat.le_succ_of_le (dedupFirstAux_length_le l seen)
    · rw [if_neg h, List.length_cons, List.length_cons]
      exact Nat.succ_le_succ (dedupFirstAux_length_le l (a :: seen))

lemma dedupFirst_length_le {α : Type} [DecidableEq α] (l : List α) :
    (dedupFirst l).length ≤ l.length :=
  dedupFirstAux_length_le l []

lemma specCandidates_length_le (fms : FMS) (filename : String)
    (provided : Option String) :
    (specCandidates fms filename provided).length ≤ 5 := by
  unfold specCandidates
  have h1 : (providedList provided).length ≤ 1 := by
    rcases provided with _ | p
    · simp [providedList]
    · by_cases hp : p = "" <;> simp [providedList, hp]
  have h2 : (optList (fms.csv.lookup filename)).length ≤ 1 := by
    rcases fms.csv.lookup filename with _ | q <;> simp [optList]
  have h3 : (optList (fms.cache.lookup filename)).length ≤ 1 := by
    rcases fms.cache.lookup filename with _ | r <;> simp [optList]
  have h4 : (if fms.default_password ≠ "" then [some fms.default_password]
      else ([] : List (Option String))).length ≤ 1 := by
    by_cases hd : fms.default_password = "" <;> simp [hd]
  simp only [List.length_append, List.length_map, List.length_singleton]
  omega

/-- The PDF document as the authentication loop sees it: whether
`fitz.open` raises, whether the document reports a password is needed,
and which passwords `doc.authenticate` accepts. -/
structure PdfDoc where
  openRaises : Bool
  needsPass : Bool
  valid : List String
deriving DecidableEq

/-- The password-related fields of the result dictionary of
`extract_text_from_pdf_enhanced`. -/
structure EnhancedResult where
  success : Bool
  passwordUsed : Option String
  passwordRequired : Bool
  attemptsMade : Nat
  suggestedPasswords : List String
deriving DecidableEq

/-- The `for attempt, pwd in enumerate(passwords_to_try)` loop of
`extract_text_from_pdf_enhanced`: given the remaining candidates, the
attempts made so far and the `authenticate` calls made so far, return
the winning candidate (if any) with the final attempt and call counts.
A falsy candidate (`None` or the empty string) is skipped without an
`authenticate` call when the document needs a password; when it does
not, the current candidate wins immediately with no `authenticate`
call. -/
def authLoop (doc : PdfDoc) : List (Option String) → Nat → Nat →
    Option (Option String) × Nat × Nat
  | [], attempts, calls => (none, attempts, calls)
  | pwd :: rest, attempts, calls =>
    if doc.openRaises then authLoop doc rest (attempts + 1) calls
    else if doc.needsPass then
      match pwd with
      | none => authLoop doc rest (attempts + 1) calls
      | some p =>
        if p = "" then authLoop doc rest (attempts + 1) calls
        else if p ∈ doc.valid then (some (some p), attempts + 1, calls + 1)
        else authLoop doc rest (attempts + 1) (calls + 1)
    else (some pwd, attempts + 1, calls)

/-- `extract_text_from_pdf_enhanced` of `core_pdf_processor.py`, lines
220-354, restricted to its password handling: the candidate list is the
resolver output truncated to 3; the loop finds the winner; on success
the winner is recorded as `password_used` and passed to
`save_successful_password` exactly when truthy (`if pwd and
file_management_service`).  Returns the result, the number of
`authenticate` calls, and the list of passwords persisted. -/
def extract_text_from_pdf_enhanced (fms : FMS) (filename : String)
    (provided : Option String) (doc : PdfDoc) :
    EnhancedResult × Nat × List String :=
  let candidates := (get_all_passwords_for_file fms filename provided).take 3
  let suggested := candidates.filterMap id
  match authLoop doc candidates 0 0 with
  | (some winner, attempts, calls) =>
    ({ success := true, passwordUsed := winner, passwordRequired := false,
       attemptsMade := attempts, suggestedPasswords := suggested },
     calls,
     match winner with
     | some p => if p ≠ "" then [p] else []
     | none => [])
  | (none, attempts, calls) =>
    ({ success := false, passwordUsed := none, passwordRequired := true,
       attemptsMade := attempts, suggestedPasswords := suggested },
     calls, [])

lemma authLoop_attempts_le (doc : PdfDoc) :
    ∀ (cands : List (Option String)) (a c : Nat),
      (authLoop doc cands a c).2.1 ≤ a + cands.length := by
  intro cands
  induction cands with
  | nil => intro a c; simp [authLoop]
  | cons pwd rest ih =>
    intro a c
    simp only [authLoop, List.length_cons]
    split
    · have := ih (a + 1) c
      omega
    · split
      · split
        · have := ih (a + 1) c
          omega
        · split
          · have := ih (a + 1) c
            omega
          · split
            · simp
            · have := ih (a + 1) (c + 1)
              omega
      · simp

/-- C6: the resolver output equals the spec sequence [provided if
non-empty, CSV entry, memory entry, default if non-empty, null] with
duplicates removed preserving first occurrence; it has at most 5
entries; it always ends with the null sentinel; and the authentication
loop, which truncates it to 3 candidates, makes at most 3 attempts. -/
theorem c6_password_order (fms : FMS) (filename : String) (provided : Option String) :
    get_all_passwords_for_file fms filename provided =
      passwordSpecList fms filename provided ∧
    (get_all_passwords_for_file fms filename provided).length ≤ 5 ∧
    (get_all_passwords_for_file fms filename provided).getLast? = some none ∧
    ∀ doc : PdfDoc,
      (extract_text_from_pdf_enhanced fms filename provided doc).1.attemptsMade ≤ 3 := by
  refine ⟨get_all_eq_spec fms filename provided, ?_, ?_, ?_⟩
  · rw [get_all_eq_spec]
    unfold passwordSpecList
    exact le_trans (dedupFirst_length_le _) (specCandidates_length_le fms filename provided)
  · simp only [get_all_passwords_for_file]
    exact List.getLast?_concat _
  · intro doc
    have hb := authLoop_attempts_le doc
      ((get_all_passwords_for_file fms filename provided).take 3) 0 0
    have hlen : ((get_all_passwords_for_file fms filename provided).take 3).length ≤ 3 :=
      List.length_take_le 3 _
    unfold extract_text_from_pdf_enhanced
    rcases hauth : authLoop doc
        ((get_all_passwords_for_file fms filename provided).take 3) 0 0 with
      ⟨w, attempts, calls⟩
    rw [hauth] at hb
    cases w <;> simp_all

/-- The separating resolver state for claim C10: the CSV caches the
empty string as the password for the file, no memory cache, no
default. -/
def c10Fms : FMS := { csv := [("doc.pdf", "")], cache := [], default_password := "" }

/-- An unencrypted document for claim C10: opening succeeds and no
password is needed. -/
def c10Doc : PdfDoc := { openRaises := false, needsPass := false, valid := [] }

/-- Counterexample for C10 as stated: with a CSV-cached empty-string
password and no other candidates, the first candidate is the non-null
empty string; for an unencrypted PDF it is accepted without any
`authenticate` call and recorded as `password_used`, yet
`save_successful_password` is NOT called (the code persists only truthy
candidates, so a non-null empty string is not persisted). -/
theorem c10_counterexample :
    get_all_passwords_for_file c10Fms "doc.pdf" none = [some "", none] ∧
    (extract_text_from_pdf_enhanced c10Fms "doc.pdf" none c10Doc).1.passwordUsed =
      some "" ∧
    (extract_text_from_pdf_enhanced c10Fms "doc.pdf" none c10Doc).2.1 = 0 ∧
    (extract_text_from_pdf_enhanced c10Fms "doc.pdf" none c10Doc).2.2 = [] := by
  refine ⟨by decide, by decide, by decide, by decide⟩

/-- C10 (amended): for every PDF that opens and needs no password, the
authentication loop accepts the first resolver candidate with zero
`authenticate` calls in exactly one attempt, records it as
`password_used`, and persists it via `save_successful_password` if and
only if it is non-null AND non-empty (Python truthiness) - an unverified
empty-string candidate is recorded but not persisted. -/
theorem c10_unencrypted_amended (fms : FMS) (filename : String)
    (provided : Option String) (doc : PdfDoc)
    (hopen : doc.openRaises = false) (hpass : doc.needsPass = false) :
    (extract_text_from_pdf_enhanced fms filename provided doc).2.1 = 0 ∧
    (extract_text_from_pdf_enhanced fms filename provided doc).1.attemptsMade = 1 ∧
    (extract_text_from_pdf_enhanced fms filename provided doc).1.passwordUsed =
      (get_all_passwords_for_file fms filename provided).headI ∧
    (extract_text_from_pdf_enhanced fms filename provided doc).2.2 =
      (match (get_all_passwords_for_file fms filename provided).headI with
        | some p => if p ≠ "" then [p] else []
        | none => []) := by
  rcases hsplit : get_all_passwords_for_file fms filename provided with _ | ⟨c, rest⟩
  · exfalso
    simp only [get_all_passwords_for_file] at hsplit
    exact absurd hsplit (by simp)
  · simp only [extract_text_from_pdf_enhanced]
    rw [hsplit, List.take_succ_cons]
    have hloop : authLoop doc (c :: rest.take 2) 0 0 = (some c, 1, 0) := by
      simp [authLoop, hopen, hpass]
    rw [hloop]
    rcases c with _ | p
    · simp [List.headI]
    · by_cases hp : p = "" <;> simp [List.headI, hp]

/-- Witness for `c10_unencrypted_amended` at the concrete state
`c10Fms` and document `c10Doc`. -/
theorem c10_unencrypted_amended_witness :
    (extract_text_from_pdf_enhanced c10Fms "doc.pdf" none c10Doc).2.1 = 0 ∧
    (extract_text_from_pdf_enhanced c10Fms "doc.pdf" none c10Doc).1.attemptsMade = 1 ∧
    (extract_text_from_pdf_enhanced c10Fms "doc.pdf" none c10Doc).1.passwordUsed =
      (get_all_passwords_for_file c10Fms "doc.pdf" none).headI ∧
    (extract_text_from_pdf_enhanced c10Fms "doc.pdf" none c10Doc).2.2 =
      (match (get_all_passwords_for_file c10Fms "doc.pdf" none).headI with
        | some p => if p ≠ "" then [p] else []
        | none => []) :=
  c10_unencrypted_amended c10Fms "doc.pdf" none c10Doc rfl rfl

/-! ### Progress tracker and progress endpoint (claims C8, C9)

The tracker dictionary is modelled as a function from batch id to an
optional snapshot; the Python float expression
`int((processed_pages / total_pages) * 100)` is modelled as the exact
natural floor `(100 * processed_pages) / total_pages` (truncation and
floor coincide for non-negative values). -/

/-- The snapshot fields of one `_progress_trackers[batch_id]` entry that
the claims use. -/
structure Snapshot where
  totalDocuments : Nat
  processedDocuments : Nat
  totalPages : Nat
  processedPages : Nat
  progressPercentage : Nat
  status : String
  results : List String
  errors : List String
deriving DecidableEq

/-- The tracker dictionary `batch_id -> snapshot`. -/
abbrev TrackerMap := String → Option Snapshot

/-- The snapshot `start_extraction` creates for a batch of the given
queue ids (`progress_percentage` not yet set is read back as 0). -/
def start_extraction_snapshot (queueIds : List Nat) : Snapshot :=
  { totalDocuments := queueIds.length, processedDocuments := 0, totalPages := 0,
    processedPages := 0, progressPercentage := 0, status := "starting",
    results := [], errors := [] }

/-- The snapshot mutation performed by `increment_processed` of
`progress_tracker.py`, lines 58-75: `processed_documents` incremented,
`processed_pages` grown by the argument when positive, and the
percentage recomputed page-weighted when `total_pages > 0`,
document-weighted when `total_documents > 0`, else 0. -/
def incrementSnapshot (s : Snapshot) (processedPages : Int) : Snapshot :=
  let s1 := { s with processedDocuments := s.processedDocuments + 1 }
  let s2 := if processedPages > 0 then
      { s1 with processedPages := s1.processedPages + processedPages.toNat }
    else s1
  let pct : Nat :=
    if s2.totalPages > 0 then (100 * s2.processedPages) / s2.totalPages
    else if s2.totalDocuments > 0 then
      (100 * s2.processedDocuments) / s2.totalDocuments
    else 0
  { s2 with progressPercentage := pct }

/-- `increment_processed` of `progress_tracker.py`, lines 47-86: an
unknown batch returns 0 with the map untouched; otherwise the snapshot
is mutated in place and the new `processed_documents` returned. -/
def increment_processed (m : TrackerMap) (batchId : String)
    (processedPages : Int) : TrackerMap × Nat :=
  match m batchId with
  | none => (m, 0)
  | some s =>
    let s3 := incrementSnapshot s processedPages
    (fun k => if k = batchId then some s3 else m k, s3.processedDocuments)

/-- Iterated `increment_processed` calls against one batch id, one per
per-document completion, each with its page count. -/
def incrementIter (m : TrackerMap) (id : String) : List Int → TrackerMap
  | [] => m
  | p :: ps => incrementIter ((increment_processed m id p).1) id ps

lemma incrementSnapshot_processedDocuments (s : Snapshot) (p : Int) :
    (incrementSnapshot s p).processedDocuments = s.processedDocuments + 1 := by
  by_cases hp : p > 0 <;> simp [incrementSnapshot, hp]

lemma incrementSnapshot_processedPages (s : Snapshot) (p : Int) (hp : 0 ≤ p) :
    (incrementSnapshot s p).processedPages = s.processedPages + p.toNat := by
  by_cases h : p > 0
  · simp [incrementSnapshot, h]
  · have hz : p.toNat = 0 := by omega
    simp [incrementSnapshot, h, hz]

lemma incrementSnapshot_totalPages (s : Snapshot) (p : Int) :
    (incrementSnapshot s p).totalPages = s.totalPages := by
  by_cases hp : p > 0 <;> simp [incrementSnapshot, hp]

lemma incrementSnapshot_totalDocuments (s : Snapshot) (p : Int) :
    (incrementSnapshot s p).totalDocuments = s.totalDocuments := by
  by_cases hp : p > 0 <;> simp [incrementSnapshot, hp]

lemma incrementSnapshot_pct_pages (s : Snapshot) (p : Int) (hp : 0 ≤ p)
    (htp : s.totalPages > 0) :
    (incrementSnapshot s p).progressPercentage =
      (100 * (s.processedPages + p.toNat)) / s.totalPages := by
  by_cases h : p > 0
  · simp [incrementSnapshot, h, htp]
  · have hz : p.toNat = 0 := by omega
    simp [incrementSnapshot, h, htp, hz]

lemma incrementSnapshot_pct_docs (s : Snapshot) (p : Int)
    (htp : s.totalPages = 0) (htd : s.totalDocuments > 0) :
    (incrementSnapshot s p).progressPercentage =
      (100 * (s.processedDocuments + 1)) / s.totalDocuments := by
  by_cases h : p > 0 <;> simp [incrementSnapshot, h, htp, htd]

lemma incrementSnapshot_pct_zero (s : Snapshot) (p : Int)
    (htp : s.totalPages = 0) (htd : s.totalDocuments = 0) :
    (incrementSnapshot s p).progressPercentage = 0 := by
  by_cases h : p > 0 <;> simp [incrementSnapshot, h, htp, htd]

lemma increment_processed_known (m : TrackerMap) (id : String) (p : Int)
    (s : Snapshot) (hlook : m id = some s) :
    increment_processed m id p =
      (fun k => if k = id then some (incrementSnapshot s p) else m k,
       (incrementSnapshot s p).processedDocuments) := by
  simp only [increment_processed, hlook]

lemma incrementIter_processed (id : String) :
    ∀ (ps : List Int) (m : TrackerMap) (s : Snapshot), m id = some s →
      ∃ s2, (incrementIter m id ps) id = some s2 ∧
        s2.processedDocuments = s.processedDocuments + ps.length ∧
        s2.totalDocuments = s.totalDocuments
  | [], m, s, h => ⟨s, by simpa [incrementIter] using h, by simp, rfl⟩
  | p :: ps, m, s, h => by
    have hstep := increment_processed_known m id p s h
    have hlook2 : (increment_processed m id p).1 id = some (incrementSnapshot s p) := by
      rw [hstep]
      simp
    obtain ⟨s2, h2, hpd2, htd2⟩ :=
      incrementIter_processed id ps (increment_processed m id p).1
        (incrementSnapshot s p) hlook2
    refine ⟨s2, by simpa [incrementIter] using h2, ?_,
      htd2.trans (incrementSnapshot_totalDocuments s p)⟩
    rw [hpd2, incrementSnapshot_processedDocuments]
    simp only [List.length_cons]
    omega

/-- The separating tracker state for claim C8: one known batch with one
document and a recorded page total of 1. -/
def c8Map : TrackerMap := fun k =>
  if k = "b" then
    some { totalDocuments := 1, processedDocuments := 0, totalPages := 1,
           processedPages := 0, progressPercentage := 0, status := "processing",
           results := [], errors := [] }
  else none

/-- Counterexample for C8 as stated: incrementing the batch with 5
processed pages against a recorded page total of 1 yields percentage
500, which is not in [0, 100] - the code does not clamp the
percentage. -/
theorem c8_counterexample :
    ((increment_processed c8Map "b" 5).1 "b").map
        (fun s => s.progressPercentage) = some 500 ∧
      ¬ (500 ≤ 100) := by
  refine ⟨by decide, by decide⟩

/-- C8 (amended): a call on a known batch increments
`processed_documents` by exactly 1 (also the returned count), grows
`processed_pages` by the non-negative provided count, and recomputes
`progress_percentage` as floor(100 * processed_pages / total_pages)
when `total_pages > 0` (document-weighted when `total_pages = 0` and
`total_documents > 0`, 0 otherwise); that percentage is guaranteed to
be at most 100 only when the accumulated pages do not exceed
`total_pages` - the code does not clamp it.  Starting from a fresh
`start_extraction` snapshot, k per-document calls leave
`processed_documents = k`, monotonically non-decreasing and bounded by
`total_documents` whenever k is (the orchestrator makes at most one call
per document of the batch). -/
theorem c8_increment_amended :
    (∀ (m : TrackerMap) (id : String) (pages : Int) (s : Snapshot),
      m id = some s → 0 ≤ pages →
      ∃ s2, (increment_processed m id pages).1 id = some s2 ∧
        s2.processedDocuments = s.processedDocuments + 1 ∧
        s2.processedPages = s.processedPages + pages.toNat ∧
        s2.totalPages = s.totalPages ∧
        s2.totalDocuments = s.totalDocuments ∧
        (s.totalPages > 0 →
          s2.progressPercentage =
            (100 * (s.processedPages + pages.toNat)) / s.totalPages) ∧
        (s.totalPages = 0 → s.totalDocuments > 0 →
          s2.progressPercentage =
            (100 * (s.processedDocuments + 1)) / s.totalDocuments) ∧
        (s.totalPages = 0 → s.totalDocuments = 0 → s2.progressPercentage = 0) ∧
        (s.totalPages > 0 → s.processedPages + pages.toNat ≤ s.totalPages →
          s2.progressPercentage ≤ 100) ∧
        (increment_processed m id pages).2 = s.processedDocuments + 1) ∧
    (∀ (id : String) (queueIds : List Nat) (ps : List Int),
      ∃ s2, (incrementIter
          (fun k => if k = id then some (start_extraction_snapshot queueIds) else none)
          id ps) id = some s2 ∧
        s2.processedDocuments = ps.length ∧
        (ps.length ≤ queueIds.length →
          s2.processedDocuments ≤ queueIds.length)) := by
  constructor
  · intro m id pages s hlook hpages
    have hbound : (100 * (s.processedPages + pages.toNat)) / s.totalPages ≤ 100 ∨
        ¬ (s.processedPages + pages.toNat ≤ s.totalPages) ∨ ¬ (s.totalPages > 0) := by
      by_cases hle : s.processedPages + pages.toNat ≤ s.totalPages
      · by_cases htp : s.totalPages > 0
        · refine Or.inl ?_
          calc (100 * (s.processedPages + pages.toNat)) / s.totalPages
              ≤ (100 * s.totalPages) / s.totalPages :=
                Nat.div_le_div_right (Nat.mul_le_mul_left 100 hle)
            _ ≤ 100 := by
                rw [Nat.mul_comm]
                exact Nat.le_of_eq (Nat.mul_div_cancel_left 100 htp)
        · exact Or.inr (Or.inr htp)
      · exact Or.inr (Or.inl hle)
    rw [increment_processed_known m id pages s hlook]
    refine ⟨incrementSnapshot s pages, by simp,
      incrementSnapshot_processedDocuments s pages,
      incrementSnapshot_processedPages s pages hpages,
      incrementSnapshot_totalPages s pages,
      incrementSnapshot_totalDocuments s pages,
      fun htp => incrementSnapshot_pct_pages s pages hpages htp,
      fun htp htd => incrementSnapshot_pct_docs s pages htp htd,
      fun htp htd => incrementSnapshot_pct_zero s pages htp htd,
      ?_, incrementSnapshot_processedDocuments s pages⟩
    intro htp hle
    rw [incrementSnapshot_pct_pages s pages hpages htp]
    rcases hbound with h | h | h
    · exact h
    · exact absurd hle h
    · exact absurd htp h
  · intro id queueIds ps
    obtain ⟨s2, h2, hpd, htd⟩ := incrementIter_processed id ps
      (fun k => if k = id then some (start_extraction_snapshot queueIds) else none)
      (start_extraction_snapshot queueIds) (by simp)
    refine ⟨s2, h2, by simpa [start_extraction_snapshot] using hpd, ?_⟩
    intro hle
    rw [hpd]
    simpa [start_extraction_snapshot] using hle

/-- Witness for `c8_increment_amended`: the known-batch half applied at
`c8Map` with one page, and the lifetime half at a two-document batch
with two completions. -/
theorem c8_increment_amended_witness :
    (∃ s2, (increment_processed c8Map "b" 1).1 "b" = some s2 ∧
      s2.processedDocuments = 0 + 1 ∧
      s2.processedPages = 0 + (1 : Int).toNat ∧
      s2.totalPages = 1 ∧
      s2.totalDocuments = 1 ∧
      ((1 : Nat) > 0 → s2.progressPercentage = (100 * (0 + (1 : Int).toNat)) / 1) ∧
      ((1 : Nat) = 0 → (1 : Nat) > 0 →
        s2.progressPercentage = (100 * (0 + 1)) / 1) ∧
      ((1 : Nat) = 0 → (1 : Nat) = 0 → s2.progressPercentage = 0) ∧
      ((1 : Nat) > 0 → 0 + (1 : Int).toNat ≤ 1 → s2.progressPercentage ≤ 100) ∧
      (increment_processed c8Map "b" 1).2 = 0 + 1) ∧
    (∃ s2, (incrementIter
        (fun k => if k = "b2" then some (start_extraction_snapshot [7, 9]) else none)
        "b2" [3, 4]) "b2" = some s2 ∧
      s2.processedDocuments = ([3, 4] : List Int).length ∧
      (([3, 4] : List Int).length ≤ ([7, 9] : List Nat).length →
        s2.processedDocuments ≤ ([7, 9] : List Nat).length)) := by
  constructor
  · exact c8_increment_amended.1 c8Map "b" 1
      { totalDocuments := 1, processedDocuments := 0, totalPages := 1,
        processedPages := 0, progressPercentage := 0, status := "processing",
        results := [], errors := [] } (by decide) (by decide)
  · exact c8_increment_amended.2 "b2" [7, 9] [3, 4]

/-- The progress response shape of the `/progress` endpoint, restricted
to the fields the claim uses. -/
structure ProgressResponse where
  batchId : String
  status : String
  totalDocuments : Nat
  processedDocuments : Nat
  totalPages : Nat
  processedPages : Nat
  progressPercentage : Nat
  results : List String
  errors : List String
deriving DecidableEq

/-- `get_progress` of `progress_tracker.py`, lines 109-144: `None` for
an unknown batch id, otherwise a copy of the snapshot fields. -/
def get_progress (m : TrackerMap) (batchId : String) : Option ProgressResponse :=
  match m batchId with
  | none => none
  | some s =>
    some { batchId := batchId, status := s.status,
           totalDocuments := s.totalDocuments,
           processedDocuments := s.processedDocuments,
           totalPages := s.totalPages, processedPages := s.processedPages,
           progressPercentage := s.progressPercentage,
           results := s.results, errors := s.errors }

/-- The synthetic snapshot the progress endpoint fabricates for an
unknown batch id. -/
def syntheticCompleted (batchId : String) : ProgressResponse :=
  { batchId := batchId, status := "completed", totalDocuments := 0,
    processedDocuments := 0, totalPages := 0, processedPages := 0,
    progressPercentage := 100, results := [], errors := [] }

/-- `get_document_text_extraction_progress` of
`document_text_extraction_router.py`, lines 68-96: return the tracker
snapshot, or the synthetic completed snapshot instead of a 404 when the
tracker has none. -/
def get_document_text_extraction_progress (m : TrackerMap)
    (batchId : String) : ProgressResponse :=
  match get_progress m batchId with
  | none => syntheticCompleted batchId
  | some p => p

/-- C9: a GET on the progress endpoint for a batch id the tracker does
not know (never started or already expired from the map) returns the
synthetic snapshot with status completed, percentage 100, empty results
and errors, and zero document and page counts - not a 404. -/
theorem c9_unknown_batch (m : TrackerMap) (batchId : String)
    (h : m batchId = none) :
    get_document_text_extraction_progress m batchId =
      { batchId := batchId, status := "completed", totalDocuments := 0,
        processedDocuments := 0, totalPages := 0, processedPages := 0,
        progressPercentage := 100, results := [], errors := [] } := by
  unfold get_document_text_extraction_progress get_progress syntheticCompleted
  rw [h]

/-- Witness for `c9_unknown_batch` at the empty tracker. -/
theorem c9_unknown_batch_witness :
    get_document_text_extraction_progress (fun _ => none) "batch_1700000000_2" =
      { batchId := "batch_1700000000_2", status := "completed",
        totalDocuments := 0, processedDocuments := 0, totalPages := 0,
        processedPages := 0, progressPercentage := 100, results := [],
        errors := [] } :=
  c9_unknown_batch (fun _ => none) "batch_1700000000_2" rfl

end Service1
